import Mathlib

/-!
# Verification of the flood risk fusion and alerting engine

Shallow embedding of `flood_preprototype/models/predictor.py`.

Conventions of the embedding:
* Python floats are modelled as rationals (`ℚ`); the scoring arithmetic in the
  source is plain `+ * / min max` on small decimal constants, which the
  rational model reproduces exactly.
* Timestamps are modelled as instants in seconds (`ℚ`); `_parse_iso` failure
  or a missing `timestamp` column is `Option.none`.
* A Python dict access `d["k"]` that may raise `KeyError` is modelled with
  `Option` fields and monadic bind, so a raised `KeyError` is `none`.
* Python `sorted` / `list.sort` are stable sorts; they are modelled with
  `List.insertionSort`, which is stable for the same comparator.
* Python strings (used as merge keys) are modelled as their code point
  sequences `List Nat`; Python string comparison is lexicographic on code
  points, modelled by `strLE`.
-/

/-- A sensor reading: `water_level`, `rainfall`, `humidity`
(the `sensor_data` dict consumed by `compute_flood_risk`). -/
structure SensorData where
  water_level : ℚ
  rainfall : ℚ
  humidity : ℚ
deriving DecidableEq

/-- An aggregated EO feature triple (the dict returned by `load_eo_features`
and consumed by `compute_flood_risk`); `none` models an absent/`None` field. -/
structure EOFeatures where
  soil_saturation : Option ℚ
  flood_extent : Option ℚ
  wetness_trend : Option ℤ
deriving DecidableEq

/-- The thresholds configuration dict. A `none` field models an absent key.
Only the keys read by `compute_flood_risk` / `compute_alert_level` appear. -/
structure Thresholds where
  water_level_m : Option ℚ
  rainfall_mm : Option ℚ
  flood_index : Option ℚ
  alert_red : Option ℚ
  alert_yellow : Option ℚ
deriving DecidableEq

/-- Alert level strings returned by `compute_alert_level`. -/
inductive AlertLevel where
  | RED
  | YELLOW
  | GREEN
deriving DecidableEq

/-- Embeds `compute_alert_level` (predictor.py lines 198-213): thresholds are read
with `.get`, defaulting to 0.75 (red) and 0.4 (yellow). -/
def compute_alert_level (flood_risk : ℚ) (t : Thresholds) : AlertLevel :=
  let red_th := t.alert_red.getD 0.75
  let yellow_th := t.alert_yellow.getD 0.4
  if flood_risk ≥ red_th then .RED
  else if flood_risk ≥ yellow_th then .YELLOW
  else .GREEN

/-- Sensor sub-score `water_level_score = min(sensor_data["water_level"] / thresholds["water_level_m"], 1.0)`. -/
def water_level_score (s : SensorData) (wlm : ℚ) : ℚ :=
  min (s.water_level / wlm) 1

/-- Sensor sub-score `rainfall_score = min(sensor_data["rainfall"] / thresholds["rainfall_mm"], 1.0)`. -/
def rainfall_score (s : SensorData) (rmm : ℚ) : ℚ :=
  min (s.rainfall / rmm) 1

/-- Sensor sub-score `humidity_score = min(sensor_data["humidity"] / 100, 1.0)`. -/
def humidity_score (s : SensorData) : ℚ :=
  min (s.humidity / 100) 1

/-- Weighted sensor baseline `sensor_index = 0.4*rainfall_score + 0.3*humidity_score + 0.3*water_level_score`. -/
def sensor_index (s : SensorData) (wlm rmm : ℚ) : ℚ :=
  0.4 * rainfall_score s rmm + 0.3 * humidity_score s + 0.3 * water_level_score s wlm

/-- Embeds `_safe_float` applied to an extracted EO value: `float(None)` raises, so
`None` becomes `0.0`; a numeric value passes through. -/
def safe_float (x : Option ℚ) : ℚ := x.getD 0

/-- EO sub-score `soil_score = min(max(_safe_float(soil), 0.0), 1.0)`. -/
def soil_score (eo : EOFeatures) : ℚ :=
  min (max (safe_float eo.soil_saturation) 0) 1

/-- The divisor `flood_norm = thresholds.get("flood_index", 0.75) or 1.0`: an absent key
defaults to `0.75` (truthy, so kept); a present zero-like value is falsy and
is replaced by `1.0`; any other present value is kept. -/
def flood_norm (t : Thresholds) : ℚ :=
  match t.flood_index with
  | none => 0.75
  | some v => if v = 0 then 1 else v

/-- EO sub-score `flood_score = min(max(_safe_float(flood) / float(flood_norm), 0.0), 1.0)`. -/
def flood_score (eo : EOFeatures) (t : Thresholds) : ℚ :=
  min (max (safe_float eo.flood_extent / flood_norm t) 0) 1

/-- EO sub-score `trend_score`: `None` gives `0.0`; otherwise `{1: 1.0, 0: 0.5, -1: 0.0}.get(trend, 0.0)`. -/
def trend_score (eo : EOFeatures) : ℚ :=
  match eo.wetness_trend with
  | none => 0
  | some tr => if tr = 1 then 1 else if tr = 0 then 0.5 else 0

/-- Weighted EO context `eo_index = 0.4*soil_score + 0.3*flood_score + 0.3*trend_score`. -/
def eo_index (eo : EOFeatures) (t : Thresholds) : ℚ :=
  0.4 * soil_score eo + 0.3 * flood_score eo t + 0.3 * trend_score eo

/-- The structured result returned by `compute_flood_risk` (the fields the
core decision logic produces; the echoed sensor record is omitted). -/
structure RiskResult where
  flood_risk : ℚ
  alert_level : AlertLevel
  eo_features : EOFeatures
deriving DecidableEq

/-- Embeds `compute_flood_risk` (predictor.py lines 216-311) with EO features
supplied by the caller, with `none` modelling every raised exception. The
dict accesses `thresholds["water_level_m"]` and `thresholds["rainfall_mm"]`
(lines 235-236) raise `KeyError` when the key is absent, and the unguarded
divisions on those same lines raise `ZeroDivisionError` when the present
value is zero (unlike `flood_index`, they have no `or 1.0` guard);
`eo_features.get(...)` never raises and the humidity and flood-extent
divisors are never zero. `flood_risk = min(0.5*sensor_index + 0.5*eo_index, 1.0)`. -/
def compute_flood_risk (s : SensorData) (eo : EOFeatures) (t : Thresholds) :
    Option RiskResult :=
  match t.water_level_m with
  | none => none
  | some wlm =>
    if wlm = 0 then none
    else
      match t.rainfall_mm with
      | none => none
      | some rmm =>
        if rmm = 0 then none
        else
          let si := sensor_index s wlm rmm
          let ei := eo_index eo t
          let fr := min (0.5 * si + 0.5 * ei) 1
          some { flood_risk := fr
                 alert_level := compute_alert_level fr t
                 eo_features := eo }

/-! ## Temporal matcher and feature aggregator (`load_eo_features`) -/

/-- One parsed CSV row of the EO feature store (predictor.py lines 57-69):
`timestamp` is the parsed instant (seconds, `none` when `_parse_iso` fails),
numeric fields are parsed with `_try_float` / `_try_int` (`none` on failure). -/
structure EORecord where
  timestamp : Option ℚ
  soil_saturation : Option ℚ
  flood_extent : Option ℚ
  wetness_trend : Option ℤ
deriving DecidableEq

/-- Python's negative-index slice `rows[-n:]` for `n : ℕ`:
`rows[-0:]` is the whole list; for `0 < n` it is the last `n` elements
(all of them when `n ≥ len(rows)`). -/
def lastSlice {α : Type} (l : List α) (n : ℕ) : List α :=
  if n = 0 then l else l.drop (l.length - n)

/-- Embeds `rows_with_delta`: the rows with a parseable timestamp, paired with the
absolute time delta to the target (predictor.py lines 96-101). -/
def rows_with_delta (rows : List EORecord) (target : ℚ) : List (ℚ × EORecord) :=
  rows.filterMap fun r => r.timestamp.map fun ts => (|ts - target|, r)

/-- The comparator of `rows_with_delta.sort(key=lambda x: x[0])`. -/
def deltaLE (a b : ℚ × EORecord) : Prop := a.1 ≤ b.1

instance : DecidableRel deltaLE := fun a b => inferInstanceAs (Decidable (a.1 ≤ b.1))

instance : IsTotal (ℚ × EORecord) deltaLE := ⟨fun a b => le_total a.1 b.1⟩

instance : IsTrans (ℚ × EORecord) deltaLE := ⟨fun _ _ _ => le_trans⟩

/-- The absolute delta of a record to the target (`0` for an unparseable
timestamp, which never reaches delta-based selection). -/
def deltaOf (r : EORecord) (target : ℚ) : ℚ :=
  match r.timestamp with
  | none => 0
  | some ts => |ts - target|

/-- Embeds `select_rows` (predictor.py lines 71-120). `match_timestamp = none` covers
both "no target given" and "target failed to parse" (both fall back to the
last-`n_recent`/all policy); `n_recent = none` is the no-count-limit mode.
Python's stable `sort` is modelled by `List.insertionSort`. -/
def select_rows (rows : List EORecord) (match_timestamp : Option ℚ)
    (n_recent : Option ℕ) (max_delta_seconds : ℚ) : List EORecord :=
  match match_timestamp with
  | none =>
      match n_recent with
      | none => rows
      | some n => lastSlice rows n
  | some target =>
      let rwd := rows_with_delta rows target
      if rwd.isEmpty then
        match n_recent with
        | none => rows
        | some n => lastSlice rows n
      else
        match n_recent with
        | none =>
            let within := rwd.filter fun p => decide (p.1 ≤ max_delta_seconds)
            if within.isEmpty then
              ((List.insertionSort deltaLE rwd).map Prod.snd)
            else
              ((List.insertionSort deltaLE within).map Prod.snd)
        | some n => (((List.insertionSort deltaLE rwd).take n).map Prod.snd)

/-- Python 3 `round` (banker's rounding, half to even) on an exact rational,
followed by `int(...)` which is the identity on the already-integral result. -/
def pyRound (q : ℚ) : ℤ :=
  if q - ⌊q⌋ < 1/2 then ⌊q⌋
  else if q - ⌊q⌋ > 1/2 then ⌊q⌋ + 1
  else if ⌊q⌋ % 2 = 0 then ⌊q⌋ else ⌊q⌋ + 1

/-- The aggregation step of `load_eo_features` (predictor.py lines 122-135):
mean of present `soil_saturation` / `flood_extent` values, rounded mean of
present `wetness_trend` codes; all-absent when the selected set is empty. -/
def aggregate_features (chosen : List EORecord) : EOFeatures :=
  if chosen.isEmpty then
    { soil_saturation := none, flood_extent := none, wetness_trend := none }
  else
    let soil_vals := chosen.filterMap EORecord.soil_saturation
    let flood_vals := chosen.filterMap EORecord.flood_extent
    let trend_vals := chosen.filterMap EORecord.wetness_trend
    { soil_saturation :=
        if soil_vals.isEmpty then none else some (soil_vals.sum / soil_vals.length)
      flood_extent :=
        if flood_vals.isEmpty then none else some (flood_vals.sum / flood_vals.length)
      wetness_trend :=
        if trend_vals.isEmpty then none
        else some (pyRound ((trend_vals.sum : ℚ) / trend_vals.length)) }

/-- Embeds `load_eo_features` (predictor.py lines 34-135) on an in-memory record
list: temporal selection followed by aggregation. -/
def load_eo_features (rows : List EORecord) (match_timestamp : Option ℚ)
    (n_recent : Option ℕ) (max_delta_seconds : ℚ) : EOFeatures :=
  aggregate_features (select_rows rows match_timestamp n_recent max_delta_seconds)

/-! ## Event merger key ordering (`log_event`) -/

/-- Python string comparison `a <= b` on code point sequences
(lexicographic; a proper prefix compares smaller). -/
def strLE : List ℕ → List ℕ → Bool
  | [], _ => true
  | _ :: _, [] => false
  | a :: as, b :: bs => a < b || (a == b && strLE as bs)

/-- A merge key of `log_event` (predictor.py lines 366-379): the normalized
timestamp string (as code points) together with its parse result. -/
structure MergeKey where
  parsed : Option ℚ
  raw : List ℕ
deriving DecidableEq

/-- The order induced by `_key_sort` (predictor.py lines 374-377): a parsed
key sorts as `(0, dt)`, an unparseable key as `(1, raw_string)`, so parsed
keys come first ordered by instant, then raw keys ordered as strings. -/
def keyLEb (a b : MergeKey) : Bool :=
  match a.parsed, b.parsed with
  | some d1, some d2 => decide (d1 ≤ d2)
  | some _, none => true
  | none, some _ => false
  | none, none => strLE a.raw b.raw

/-- Propositional form of `keyLEb`. -/
def keyLE (a b : MergeKey) : Prop := keyLEb a b = true

instance : DecidableRel keyLE := fun a b => inferInstanceAs (Decidable (keyLEb a b = true))

/-- Embeds `sorted_keys = sorted(keys, key=_key_sort)` (predictor.py line 379). -/
def merge_sorted_keys (keys : List MergeKey) : List MergeKey :=
  List.insertionSort keyLE keys

/-! ## Concrete inputs used by counterexamples and witnesses -/

/-- The sensor reading of the spec's worked example:
`{water_level=60, rainfall=25, humidity=90}`. -/
def ex3_sensor : SensorData := ⟨60, 25, 90⟩

/-- The EO triple of the spec's worked example:
`{soil_saturation=0.8, flood_extent=0.3, wetness_trend=1}`. -/
def ex3_eo : EOFeatures := ⟨some (4/5), some (3/10), some 1⟩

/-- The thresholds of the spec's worked example: `{water_level_m=80,
rainfall_mm=30, flood_index=0.75, alert_red=0.75, alert_yellow=0.4}`. -/
def ex3_thresholds : Thresholds := ⟨some 80, some 30, some (3/4), some (3/4), some (2/5)⟩

/-- A thresholds dict whose `flood_index` key is present but zero. -/
def ex4_thresholds : Thresholds := ⟨some 80, some 30, some 0, none, none⟩

/-- An EO triple with `flood_extent = 0.3` and the other fields absent. -/
def ex4_eo : EOFeatures := ⟨none, some (3/10), none⟩

/-- A stored EO record at instant 0 (delta 0 from target 0). -/
def ex5_r1 : EORecord := ⟨some 0, some (1/2), some (3/10), some 1⟩

/-- A stored EO record at instant 100 (outside a 60-second tolerance of
target 0). -/
def ex5_r2 : EORecord := ⟨some 100, some (7/10), some (1/5), some 0⟩

/-- A stored EO record with a parseable timestamp, used for the `n_recent=0`
counterexample. -/
def ex6_r1 : EORecord := ⟨some 0, some (1/2), none, none⟩

/-- An unparseable merge key whose raw string is "zzz" (code points). -/
def ex8_kz : MergeKey := ⟨none, [122, 122, 122]⟩

/-- An unparseable merge key whose raw string is "aaa" (code points). -/
def ex8_ka : MergeKey := ⟨none, [97, 97, 97]⟩

instance : IsTotal MergeKey keyLE := by
  constructor
  have hstr : ∀ a b : List ℕ, strLE a b = true ∨ strLE b a = true := by
    intro a
    induction a with
    | nil => intro b; left; rfl
    | cons x xs ih =>
        intro b
        cases b with
        | nil => right; rfl
        | cons y ys =>
            simp only [strLE, Bool.or_eq_true, Bool.and_eq_true, beq_iff_eq,
              decide_eq_true_eq]
            rcases Nat.lt_trichotomy x y with h | h | h
            · exact Or.inl (Or.inl h)
            · rcases ih ys with h2 | h2
              · exact Or.inl (Or.inr ⟨h, h2⟩)
              · exact Or.inr (Or.inr ⟨h.symm, h2⟩)
            · exact Or.inr (Or.inl h)
  intro a b
  unfold keyLE keyLEb
  cases ha : a.parsed <;> cases hb : b.parsed <;> simp
  · exact hstr a.raw b.raw
  · rename_i d1 d2
    rcases le_total d1 d2 with h | h
    · exact Or.inl h
    · exact Or.inr h

instance : IsTrans MergeKey keyLE := by
  constructor
  have hstr : ∀ a b c : List ℕ,
      strLE a b = true → strLE b c = true → strLE a c = true := by
    intro a
    induction a with
    | nil => intro b c _ _; rfl
    | cons x xs ih =>
        intro b c hab hbc
        cases b with
        | nil => simp [strLE] at hab
        | cons y ys =>
            cases c with
            | nil => simp [strLE] at hbc
            | cons z zs =>
                simp only [strLE, Bool.or_eq_true, Bool.and_eq_true, beq_iff_eq,
                  decide_eq_true_eq] at hab hbc ⊢
                rcases hab with h1 | ⟨h1, h1'⟩ <;> rcases hbc with h2 | ⟨h2, h2'⟩
                · exact Or.inl (by omega)
                · exact Or.inl (by omega)
                · exact Or.inl (by omega)
                · exact Or.inr ⟨by omega, ih ys zs h1' h2'⟩
  intro a b c hab hbc
  unfold keyLE keyLEb at hab hbc ⊢
  cases ha : a.parsed <;> cases hb : b.parsed <;> cases hc : c.parsed <;>
    rw [ha, hb] at hab <;> rw [hb, hc] at hbc <;> simp_all
  · exact hstr a.raw b.raw c.raw hab hbc
  · exact le_trans hab hbc

/-! ## Helper lemmas -/

/-- The EO index is non-negative for every input: each of its three
sub-scores is clamped below by 0. -/
lemma eo_index_nonneg (eo : EOFeatures) (t : Thresholds) : 0 ≤ eo_index eo t := by
  unfold eo_index soil_score flood_score trend_score
  have h1 : (0:ℚ) ≤ min (max (safe_float eo.soil_saturation) 0) 1 :=
    le_min (le_max_right _ 0) zero_le_one
  have h2 : (0:ℚ) ≤ min (max (safe_float eo.flood_extent / flood_norm t) 0) 1 :=
    le_min (le_max_right _ 0) zero_le_one
  have h3 : (0:ℚ) ≤ (match eo.wetness_trend with
      | none => 0
      | some tr => if tr = 1 then 1 else if tr = 0 then (0.5:ℚ) else 0) := by
    match eo.wetness_trend with
    | none => norm_num
    | some tr =>
        by_cases htr : tr = 1
        · simp [htr]
        · by_cases htr0 : tr = 0 <;> simp [htr, htr0] <;> norm_num
  nlinarith

/-- An all-absent EO triple contributes a zero EO index. -/
lemma eo_index_all_absent (t : Thresholds) :
    eo_index ⟨none, none, none⟩ t = 0 := by
  simp [eo_index, soil_score, flood_score, trend_score, safe_float]

/-- Rounding an exact integer is the identity. -/
lemma pyRound_intCast (z : ℤ) : pyRound (z : ℚ) = z := by
  unfold pyRound
  rw [Int.floor_intCast]
  norm_num

/-- Membership in `rows_with_delta` comes from a stored row with a parseable
timestamp, and the first component is that row's absolute delta. -/
lemma mem_rows_with_delta {rows : List EORecord} {t : ℚ} {p : ℚ × EORecord}
    (hp : p ∈ rows_with_delta rows t) :
    p.2 ∈ rows ∧ ∃ ts, p.2.timestamp = some ts ∧ p.1 = |ts - t| := by
  unfold rows_with_delta at hp
  rw [List.mem_filterMap] at hp
  obtain ⟨r, hr, hfr⟩ := hp
  cases h : r.timestamp with
  | none => rw [h] at hfr; simp at hfr
  | some ts =>
      rw [h] at hfr
      simp only [Option.map_some'] at hfr
      obtain rfl : (|ts - t|, r) = p := Option.some_inj.mp hfr
      exact ⟨hr, ts, h, rfl⟩

/-- On `rows_with_delta`, the stored delta agrees with `deltaOf`. -/
lemma rwd_fst_eq_deltaOf {rows : List EORecord} {t : ℚ} {p : ℚ × EORecord}
    (hp : p ∈ rows_with_delta rows t) : p.1 = deltaOf p.2 t := by
  obtain ⟨-, ts, hts, h1⟩ := mem_rows_with_delta hp
  rw [h1, deltaOf, hts]

/-- In a list sorted by a key, if at least `n` elements have key below a
bound then every element of the first `n` does. -/
lemma sorted_take_le {α : Type} (key : α → ℚ) (tol : ℚ) :
    ∀ (s : List α), List.Sorted (fun a b => key a ≤ key b) s →
      ∀ n, n ≤ s.countP (fun a => decide (key a ≤ tol)) →
        ∀ x ∈ s.take n, key x ≤ tol := by
  intro s
  induction s with
  | nil => intro _ n _ x hx; simp at hx
  | cons a s ih =>
      intro hs n hn x hx
      cases n with
      | zero => simp at hx
      | succ m =>
          by_cases ha : key a ≤ tol
          · rw [List.take_succ_cons] at hx
            rcases List.mem_cons.mp hx with rfl | hx'
            · exact ha
            · refine ih hs.of_cons m ?_ x hx'
              rw [List.countP_cons] at hn
              simp [ha] at hn
              omega
          · exfalso
            have hcount : (a :: s).countP (fun b => decide (key b ≤ tol)) = 0 := by
              rw [List.countP_eq_zero]
              intro b hb
              rcases List.mem_cons.mp hb with rfl | hb'
              · simpa using ha
              · have hle := List.rel_of_sorted_cons hs b hb'
                simp only [decide_eq_true_eq]
                intro hbt
                exact ha (le_trans hle hbt)
            omega

/-- Projecting a sublist of the delta-sorted pair list to records yields a
list pairwise ordered by ascending absolute delta. -/
lemma pairwise_map_snd_sorted (rows : List EORecord) (t : ℚ)
    (l : List (ℚ × EORecord))
    (hsub : l.Sublist (List.insertionSort deltaLE (rows_with_delta rows t))) :
    (l.map Prod.snd).Pairwise (fun a b => deltaOf a t ≤ deltaOf b t) := by
  have hsorted : List.Sorted deltaLE (List.insertionSort deltaLE (rows_with_delta rows t)) :=
    List.sorted_insertionSort deltaLE (rows_with_delta rows t)
  have hl : l.Pairwise deltaLE := hsorted.sublist hsub
  rw [List.pairwise_map]
  refine hl.imp_of_mem ?_
  intro p q hpmem hqmem hpq
  have hp' : p ∈ rows_with_delta rows t :=
    (List.perm_insertionSort deltaLE (rows_with_delta rows t)).subset (hsub.subset hpmem)
  have hq' : q ∈ rows_with_delta rows t :=
    (List.perm_insertionSort deltaLE (rows_with_delta rows t)).subset (hsub.subset hqmem)
  rw [← rwd_fst_eq_deltaOf hp', ← rwd_fst_eq_deltaOf hq']
  exact hpq

/-- A stored row with a parseable timestamp makes `rows_with_delta`
non-empty. -/
lemma rwd_ne_nil_of_parseable {rows : List EORecord} {t : ℚ}
    (hrec : ∃ r ∈ rows, r.timestamp.isSome = true) :
    rows_with_delta rows t ≠ [] := by
  obtain ⟨r, hr, hts⟩ := hrec
  obtain ⟨ts, hts'⟩ := Option.isSome_iff_exists.mp hts
  have hmem : (|ts - t|, r) ∈ rows_with_delta rows t := by
    unfold rows_with_delta
    rw [List.mem_filterMap]
    exact ⟨r, hr, by rw [hts']; rfl⟩
  intro h
  rw [h] at hmem
  simp at hmem

/-! ## Claim theorems -/

/-- Claim C1: for every sensor reading with non-negative water level,
rainfall and humidity, every EO feature triple whose present values are
non-negative, and every threshold configuration with positive
`water_level_m`, `rainfall_mm` and `flood_index`, `compute_flood_risk`
returns a result whose `flood_risk` lies in `[0, 1]` inclusive. -/
theorem C1_flood_risk_in_unit_interval (s : SensorData) (eo : EOFeatures)
    (t : Thresholds)
    (hw : 0 ≤ s.water_level) (hr : 0 ≤ s.rainfall) (hh : 0 ≤ s.humidity)
    (hsoil : ∀ v, eo.soil_saturation = some v → 0 ≤ v)
    (hflood : ∀ v, eo.flood_extent = some v → 0 ≤ v)
    (wlm rmm fi : ℚ)
    (hwlm : t.water_level_m = some wlm) (hwlm0 : 0 < wlm)
    (hrmm : t.rainfall_mm = some rmm) (hrmm0 : 0 < rmm)
    (hfi : t.flood_index = some fi) (hfi0 : 0 < fi) :
    ∃ res, compute_flood_risk s eo t = some res ∧
      0 ≤ res.flood_risk ∧ res.flood_risk ≤ 1 := by
  have hsi : 0 ≤ sensor_index s wlm rmm := by
    unfold sensor_index rainfall_score humidity_score water_level_score
    have h1 : (0:ℚ) ≤ min (s.rainfall / rmm) 1 :=
      le_min (div_nonneg hr hrmm0.le) zero_le_one
    have h2 : (0:ℚ) ≤ min (s.humidity / 100) 1 :=
      le_min (div_nonneg hh (by norm_num)) zero_le_one
    have h3 : (0:ℚ) ≤ min (s.water_level / wlm) 1 :=
      le_min (div_nonneg hw hwlm0.le) zero_le_one
    nlinarith
  have hei := eo_index_nonneg eo t
  refine ⟨⟨min (0.5 * sensor_index s wlm rmm + 0.5 * eo_index eo t) 1,
      compute_alert_level (min (0.5 * sensor_index s wlm rmm + 0.5 * eo_index eo t) 1) t,
      eo⟩, ?_, ?_, ?_⟩
  · simp [compute_flood_risk, hwlm, hrmm, hwlm0.ne', hrmm0.ne']
  · exact le_min (by linarith) zero_le_one
  · exact min_le_right _ _

/-- Witness for C1 at the worked example inputs. -/
theorem C1_flood_risk_in_unit_interval_witness :
    ∃ res, compute_flood_risk ex3_sensor ex3_eo ex3_thresholds = some res ∧
      0 ≤ res.flood_risk ∧ res.flood_risk ≤ 1 :=
  C1_flood_risk_in_unit_interval ex3_sensor ex3_eo ex3_thresholds
    (by norm_num [ex3_sensor]) (by norm_num [ex3_sensor]) (by norm_num [ex3_sensor])
    (by intro v hv; injection hv with h; rw [← h]; norm_num)
    (by intro v hv; injection hv with h; rw [← h]; norm_num)
    80 30 (3/4) rfl (by norm_num) rfl (by norm_num) rfl (by norm_num)

/-- Claim C2: for every risk value and threshold configuration,
`compute_alert_level` returns `RED` exactly when `risk ≥ alert_red`
(default 0.75 when the key is absent), otherwise `YELLOW` exactly when
`risk ≥ alert_yellow` (default 0.4 when absent), and `GREEN` otherwise. -/
theorem C2_alert_level_classification (risk : ℚ) (t : Thresholds) :
    (compute_alert_level risk t = .RED ↔ t.alert_red.getD 0.75 ≤ risk) ∧
    (compute_alert_level risk t = .YELLOW ↔
      risk < t.alert_red.getD 0.75 ∧ t.alert_yellow.getD 0.4 ≤ risk) ∧
    (compute_alert_level risk t = .GREEN ↔
      risk < t.alert_red.getD 0.75 ∧ risk < t.alert_yellow.getD 0.4) := by
  by_cases h1 : t.alert_red.getD 0.75 ≤ risk
  · by_cases h2 : t.alert_yellow.getD 0.4 ≤ risk <;>
      simp [compute_alert_level, h1, h2, ge_iff_le, not_lt.mpr h1]
  · by_cases h2 : t.alert_yellow.getD 0.4 ≤ risk <;>
      simp [compute_alert_level, h1, h2, ge_iff_le, not_le.mp h1] <;>
      simp [not_le] at h1 h2 <;> linarith

/-- Counterexample to claim C3: at the spec's worked example inputs the code
does not produce `sensor_index = 0.8082` nor `flood_risk = 0.7741`. -/
theorem C3_worked_example_counterexample :
    (compute_flood_risk ex3_sensor ex3_eo ex3_thresholds).map RiskResult.flood_risk ≠
      some (7741/10000) ∧
    sensor_index ex3_sensor 80 30 ≠ 8082/10000 := by
  norm_num [water_level_score, rainfall_score, humidity_score, sensor_index,
    eo_index, soil_score, flood_score, trend_score, safe_float, flood_norm,
    compute_flood_risk, compute_alert_level, ex3_sensor, ex3_eo, ex3_thresholds,
    min_def, max_def]

/-- Claim C3 (amended): at sensor `{water_level=60, rainfall=25, humidity=90}`,
thresholds `{water_level_m=80, rainfall_mm=30, flood_index=0.75,
alert_red=0.75, alert_yellow=0.4}` and EO `{soil_saturation=0.8,
flood_extent=0.3, wetness_trend=1}` the scorer produces `water_score = 3/4`,
`rain_score = 5/6`, `humidity_score = 9/10`, `sensor_index = 497/600 ≈ 0.8283`,
`eo_index = 37/50 = 0.74` and `flood_risk = 941/1200 ≈ 0.7842`, classified
`RED`. -/
theorem C3_worked_example_amended :
    water_level_score ex3_sensor 80 = 3/4 ∧
    rainfall_score ex3_sensor 30 = 5/6 ∧
    humidity_score ex3_sensor = 9/10 ∧
    sensor_index ex3_sensor 80 30 = 497/600 ∧
    eo_index ex3_eo ex3_thresholds = 37/50 ∧
    (compute_flood_risk ex3_sensor ex3_eo ex3_thresholds).map RiskResult.flood_risk =
      some (941/1200) ∧
    (compute_flood_risk ex3_sensor ex3_eo ex3_thresholds).map RiskResult.alert_level =
      some .RED := by
  norm_num [water_level_score, rainfall_score, humidity_score, sensor_index,
    eo_index, soil_score, flood_score, trend_score, safe_float, flood_norm,
    compute_flood_risk, compute_alert_level, ex3_sensor, ex3_eo, ex3_thresholds,
    min_def, max_def]

/-- Counterexample to claim C4: with `flood_index` present but zero the
flood-extent divisor is 1.0, not the claimed default 0.75, so
`flood_extent = 0.3` scores 0.3 rather than 0.4. -/
theorem C4_flood_norm_counterexample :
    flood_norm ex4_thresholds = 1 ∧
    flood_score ex4_eo ex4_thresholds = 3/10 ∧
    flood_score ex4_eo ex4_thresholds ≠ 2/5 := by
  norm_num [flood_norm, flood_score, safe_float, ex4_thresholds, ex4_eo,
    min_def, max_def]

/-- Claim C4 (amended): when `thresholds.flood_index` is unset the
flood-extent divisor defaults to 0.75; when it is present but zero the
divisor is 1.0 (not 0.75); in every case the divisor is non-zero, so
division by zero never occurs. -/
theorem C4_flood_norm_amended (t : Thresholds) (eo : EOFeatures) :
    (t.flood_index = none → flood_norm t = 0.75 ∧
      flood_score eo t = min (max (safe_float eo.flood_extent / 0.75) 0) 1) ∧
    (t.flood_index = some 0 → flood_norm t = 1 ∧
      flood_score eo t = min (max (safe_float eo.flood_extent / 1) 0) 1) ∧
    flood_norm t ≠ 0 := by
  refine ⟨fun h => ?_, fun h => ?_, ?_⟩
  · simp [flood_norm, flood_score, h]
  · simp [flood_norm, flood_score, h]
  · unfold flood_norm
    match h : t.flood_index with
    | none => norm_num
    | some v => by_cases hv : v = 0 <;> simp [hv]

/-- Witness for C4 (amended) at a configuration missing `flood_index` and at
one whose `flood_index` is zero. -/
theorem C4_flood_norm_amended_witness :
    (flood_norm ⟨some 80, some 30, none, none, none⟩ = 0.75 ∧
      flood_score ex4_eo ⟨some 80, some 30, none, none, none⟩ =
        min (max (safe_float ex4_eo.flood_extent / 0.75) 0) 1) ∧
    (flood_norm ex4_thresholds = 1 ∧
      flood_score ex4_eo ex4_thresholds =
        min (max (safe_float ex4_eo.flood_extent / 1) 0) 1) ∧
    flood_norm ex4_thresholds ≠ 0 := by
  refine ⟨(C4_flood_norm_amended ⟨some 80, some 30, none, none, none⟩ ex4_eo).1 rfl,
    (C4_flood_norm_amended ex4_thresholds ex4_eo).2.1 rfl,
    (C4_flood_norm_amended ex4_thresholds ex4_eo).2.2⟩

/-- Counterexample to claim C5: with target 0, tolerance 60 and count limit
N = 2, the matcher also selects the record at delta 100 — outside the
tolerance window — so it does not select "exactly those within-tolerance
records". -/
theorem C5_count_limited_matching_counterexample :
    select_rows [ex5_r1, ex5_r2] (some 0) (some 2) 60 = [ex5_r1, ex5_r2] ∧
    select_rows [ex5_r1, ex5_r2] (some 0) (some 2) 60 ≠ [ex5_r1] ∧
    ex5_r2.timestamp = some 100 ∧ ¬ (|(100:ℚ) - 0| ≤ 60) := by
  norm_num [select_rows, rows_with_delta, ex5_r1, ex5_r2, deltaLE,
    abs_eq_max_neg, max_def, List.filterMap, Option.map]

/-- Claim C5 (amended): for every parseable target, positive count limit N
and store with at least one parseable record, the matcher selects the N
closest parseable records irrespective of the tolerance window: it selects
min(N, number of parseable records) stored records, each with a parseable
timestamp, sorted by ascending absolute delta, and every selected record's
delta is at most that of every parseable record left unselected (the
closest-N property); moreover whenever at least N records lie within the
tolerance window, every selected record is within tolerance, which is the
originally claimed behaviour. -/
theorem C5_count_limited_matching_amended (rows : List EORecord) (t tol : ℚ)
    (n : ℕ) (hn : 0 < n)
    (hrec : rows_with_delta rows t ≠ []) :
    (select_rows rows (some t) (some n) tol).length =
      min n (rows_with_delta rows t).length ∧
    (∀ r ∈ select_rows rows (some t) (some n) tol,
      r ∈ rows ∧ r.timestamp.isSome = true) ∧
    (select_rows rows (some t) (some n) tol).Pairwise
      (fun a b => deltaOf a t ≤ deltaOf b t) ∧
    (∀ r ∈ select_rows rows (some t) (some n) tol,
      ∀ r' ∈ rows, r'.timestamp.isSome = true →
        r' ∉ select_rows rows (some t) (some n) tol →
        deltaOf r t ≤ deltaOf r' t) ∧
    (n ≤ ((rows_with_delta rows t).filter fun p => decide (p.1 ≤ tol)).length →
      ∀ r ∈ select_rows rows (some t) (some n) tol,
        ∃ ts, r.timestamp = some ts ∧ |ts - t| ≤ tol) := by
  have hrwdne : (rows_with_delta rows t).isEmpty = false := by
    rwa [List.isEmpty_eq_false]
  have hsel : select_rows rows (some t) (some n) tol =
      ((List.insertionSort deltaLE (rows_with_delta rows t)).take n).map Prod.snd := by
    simp [select_rows, hrwdne]
  have hsorted : List.Sorted deltaLE (List.insertionSort deltaLE (rows_with_delta rows t)) :=
    List.sorted_insertionSort deltaLE (rows_with_delta rows t)
  have hperm := List.perm_insertionSort deltaLE (rows_with_delta rows t)
  have htake : ∀ p ∈ (List.insertionSort deltaLE (rows_with_delta rows t)).take n,
      p ∈ rows_with_delta rows t :=
    fun p hp => hperm.subset (List.take_subset n _ hp)
  refine ⟨?_, ?_, ?_, ?_, ?_⟩
  · rw [hsel, List.length_map, List.length_take, List.length_insertionSort]
  · intro r hr
    rw [hsel, List.mem_map] at hr
    obtain ⟨p, hp, rfl⟩ := hr
    obtain ⟨hmem, ts, hts, -⟩ := mem_rows_with_delta (htake p hp)
    exact ⟨hmem, by rw [hts]; rfl⟩
  · rw [hsel]
    exact pairwise_map_snd_sorted rows t _ (List.take_sublist n _)
  · intro r hr r' hr' hps hnot
    rw [hsel, List.mem_map] at hr
    obtain ⟨p, hp, rfl⟩ := hr
    obtain ⟨ts', hts'⟩ := Option.isSome_iff_exists.mp hps
    have hq : (|ts' - t|, r') ∈ rows_with_delta rows t := by
      unfold rows_with_delta
      rw [List.mem_filterMap]
      exact ⟨r', hr', by rw [hts']; rfl⟩
    have hq' : (|ts' - t|, r') ∈ List.insertionSort deltaLE (rows_with_delta rows t) :=
      hperm.mem_iff.mpr hq
    rw [← List.take_append_drop n
      (List.insertionSort deltaLE (rows_with_delta rows t))] at hq'
    rcases List.mem_append.mp hq' with hqt | hqd
    · exact absurd (hsel ▸ List.mem_map.mpr ⟨_, hqt, rfl⟩) hnot
    · have hpw : List.Pairwise deltaLE
          ((List.insertionSort deltaLE (rows_with_delta rows t)).take n ++
           (List.insertionSort deltaLE (rows_with_delta rows t)).drop n) := by
        rw [List.take_append_drop]
        exact hsorted
      have hle : deltaLE p (|ts' - t|, r') :=
        (List.pairwise_append.mp hpw).2.2 p hp _ hqd
      have h1 : p.1 = deltaOf p.2 t := rwd_fst_eq_deltaOf (htake p hp)
      have h2 : deltaOf r' t = |ts' - t| := by simp [deltaOf, hts']
      rw [← h1, h2]
      exact hle
  · intro hcnt r hr
    have hwithin : ∀ p ∈ (List.insertionSort deltaLE (rows_with_delta rows t)).take n,
        p.1 ≤ tol := by
      refine sorted_take_le Prod.fst tol _ hsorted n ?_
      rw [hperm.countP_eq]
      rw [← List.countP_eq_length_filter] at hcnt
      exact hcnt
    rw [hsel, List.mem_map] at hr
    obtain ⟨p, hp, rfl⟩ := hr
    obtain ⟨-, ts, hts, h1⟩ := mem_rows_with_delta (htake p hp)
    exact ⟨ts, hts, h1 ▸ hwithin p hp⟩

/-- Witness for C5 (amended): two stored records at deltas 0 and 100 from
the target, tolerance 60, count limit 2 — the situation of the
counterexample, exercising the tolerance-independent selection. -/
theorem C5_count_limited_matching_amended_witness :
    (select_rows [ex5_r1, ex5_r2] (some 0) (some 2) 60).length =
      min 2 (rows_with_delta [ex5_r1, ex5_r2] 0).length ∧
    (∀ r ∈ select_rows [ex5_r1, ex5_r2] (some 0) (some 2) 60,
      r ∈ [ex5_r1, ex5_r2] ∧ r.timestamp.isSome = true) ∧
    (select_rows [ex5_r1, ex5_r2] (some 0) (some 2) 60).Pairwise
      (fun a b => deltaOf a 0 ≤ deltaOf b 0) ∧
    (∀ r ∈ select_rows [ex5_r1, ex5_r2] (some 0) (some 2) 60,
      ∀ r' ∈ [ex5_r1, ex5_r2], r'.timestamp.isSome = true →
        r' ∉ select_rows [ex5_r1, ex5_r2] (some 0) (some 2) 60 →
        deltaOf r 0 ≤ deltaOf r' 0) ∧
    (2 ≤ ((rows_with_delta [ex5_r1, ex5_r2] 0).filter fun p => decide (p.1 ≤ 60)).length →
      ∀ r ∈ select_rows [ex5_r1, ex5_r2] (some 0) (some 2) 60,
        ∃ ts, r.timestamp = some ts ∧ |ts - (0:ℚ)| ≤ 60) :=
  C5_count_limited_matching_amended [ex5_r1, ex5_r2] 0 60 2 (by norm_num)
    (by simp [rows_with_delta, ex5_r1, ex5_r2])

/-- Counterexample to claim C6: with an explicit count limit of 0 the
matcher returns the empty selection even though a stored record has a
parseable timestamp. -/
theorem C6_matcher_nonempty_counterexample :
    ex6_r1.timestamp.isSome = true ∧
    select_rows [ex6_r1] (some 0) (some 0) 60 = [] := by decide

/-- Claim C6 (amended): for every target timestamp, whenever at least one
stored record has a parseable timestamp and the count limit, if given, is
positive, the matcher's selection is non-empty; moreover with no count
limit, when no record falls within tolerance it returns all parseable
records sorted by ascending absolute delta. -/
theorem C6_matcher_nonempty_amended (rows : List EORecord) (t tol : ℚ)
    (nrec : Option ℕ)
    (hrec : ∃ r ∈ rows, r.timestamp.isSome = true)
    (hpos : ∀ n, nrec = some n → 0 < n) :
    select_rows rows (some t) nrec tol ≠ [] ∧
    (nrec = none →
      ((rows_with_delta rows t).filter fun p => decide (p.1 ≤ tol)) = [] →
      (select_rows rows (some t) none tol).length = (rows_with_delta rows t).length ∧
      (select_rows rows (some t) none tol).Pairwise
        (fun a b => deltaOf a t ≤ deltaOf b t)) := by
  have hne := rwd_ne_nil_of_parseable (t := t) hrec
  have hrwdne : (rows_with_delta rows t).isEmpty = false := by
    rwa [List.isEmpty_eq_false]
  have hlen : 0 < (rows_with_delta rows t).length := List.length_pos.mpr hne
  have hsortne : List.insertionSort deltaLE (rows_with_delta rows t) ≠ [] := by
    intro h
    have hlen0 := congrArg List.length h
    rw [List.length_insertionSort] at hlen0
    simp only [List.length_nil, List.length_eq_zero] at hlen0
    exact hne hlen0
  constructor
  · cases nrec with
    | none =>
        by_cases hw : ((rows_with_delta rows t).filter fun p => decide (p.1 ≤ tol)).isEmpty
        · have hsel : select_rows rows (some t) none tol =
              (List.insertionSort deltaLE (rows_with_delta rows t)).map Prod.snd := by
            simp [select_rows, hrwdne, hw]
          rw [hsel]
          intro h
          exact hsortne (List.map_eq_nil_iff.mp h)
        · have hwne : ((rows_with_delta rows t).filter fun p => decide (p.1 ≤ tol)) ≠ [] := by
            intro h
            rw [h] at hw
            simp at hw
          have hsel : select_rows rows (some t) none tol =
              (List.insertionSort deltaLE
                ((rows_with_delta rows t).filter fun p => decide (p.1 ≤ tol))).map Prod.snd := by
            simp only [Bool.not_eq_true] at hw
            simp [select_rows, hrwdne, hw]
          rw [hsel]
          intro h
          have hlen0 := congrArg List.length (List.map_eq_nil_iff.mp h)
          rw [List.length_insertionSort] at hlen0
          simp only [List.length_nil, List.length_eq_zero] at hlen0
          exact hwne hlen0
    | some n =>
        have hn := hpos n rfl
        have hsel : select_rows rows (some t) (some n) tol =
            ((List.insertionSort deltaLE (rows_with_delta rows t)).take n).map Prod.snd := by
          simp [select_rows, hrwdne]
        rw [hsel]
        intro h
        have hlen0 := congrArg List.length h
        rw [List.length_map, List.length_take, List.length_insertionSort] at hlen0
        simp only [List.length_nil] at hlen0
        omega
  · intro _ hfilt
    have hw : ((rows_with_delta rows t).filter fun p => decide (p.1 ≤ tol)).isEmpty = true := by
      rw [hfilt]; rfl
    have hsel : select_rows rows (some t) none tol =
        (List.insertionSort deltaLE (rows_with_delta rows t)).map Prod.snd := by
      simp [select_rows, hrwdne, hw]
    constructor
    · rw [hsel, List.length_map, List.length_insertionSort]
    · rw [hsel]
      exact pairwise_map_snd_sorted rows t _ (List.Sublist.refl _)

/-- Witness for C6 (amended): a single parseable record, no count limit,
target 1000 seconds away (outside tolerance). -/
theorem C6_matcher_nonempty_amended_witness :
    select_rows [ex6_r1] (some 1000) none 60 ≠ [] ∧
    ((none : Option ℕ) = none →
      ((rows_with_delta [ex6_r1] 1000).filter fun p => decide (p.1 ≤ 60)) = [] →
      (select_rows [ex6_r1] (some 1000) none 60).length =
        (rows_with_delta [ex6_r1] 1000).length ∧
      (select_rows [ex6_r1] (some 1000) none 60).Pairwise
        (fun a b => deltaOf a 1000 ≤ deltaOf b 1000)) :=
  C6_matcher_nonempty_amended [ex6_r1] 1000 60 none
    ⟨ex6_r1, by simp, rfl⟩ (fun n h => Option.noConfusion h)

/-- Claim C7: aggregating a single-record selection returns that record's
values unchanged: `soil_saturation` and `flood_extent` equal the record's
fields (absent when absent), and `wetness_trend` equals the record's trend
code whenever that code is in `{-1, 0, 1}`. -/
theorem C7_single_record_aggregation (r : EORecord) :
    (aggregate_features [r]).soil_saturation = r.soil_saturation ∧
    (aggregate_features [r]).flood_extent = r.flood_extent ∧
    ∀ tr : ℤ, r.wetness_trend = some tr → (tr = -1 ∨ tr = 0 ∨ tr = 1) →
      (aggregate_features [r]).wetness_trend = some tr := by
  obtain ⟨ts, soil, fl, tr⟩ := r
  refine ⟨?_, ?_, fun tv htv _ => ?_⟩
  · cases soil <;> simp [aggregate_features]
  · cases fl <;> simp [aggregate_features]
  · simp at htv
    subst htv
    simp [aggregate_features, pyRound_intCast]

/-- Witness for C7 at a fully-present record with trend code 1. -/
theorem C7_single_record_aggregation_witness :
    (aggregate_features [ex5_r1]).soil_saturation = some (1/2) ∧
    (aggregate_features [ex5_r1]).flood_extent = some (3/10) ∧
    (aggregate_features [ex5_r1]).wetness_trend = some 1 := by
  obtain ⟨h1, h2, h3⟩ := C7_single_record_aggregation ex5_r1
  exact ⟨h1, h2, h3 1 rfl (by norm_num)⟩

/-- Counterexample to claim C8: two unparseable keys encountered as "zzz"
then "aaa" are emitted in lexicographic order "aaa", "zzz" — not in the
original encounter order. -/
theorem C8_merge_order_counterexample :
    merge_sorted_keys [ex8_kz, ex8_ka] = [ex8_ka, ex8_kz] ∧
    merge_sorted_keys [ex8_kz, ex8_ka] ≠ [ex8_kz, ex8_ka] := by decide

/-- Claim C8 (amended): the merged key order is a permutation of the input
keys in which every row with a parseable timestamp precedes every row
without one, parseable rows are ordered by parsed timestamp ascending, and
unparseable rows are ordered lexicographically by their raw timestamp
string — not in encounter order. -/
theorem C8_merge_order_amended (keys : List MergeKey) :
    List.Perm (merge_sorted_keys keys) keys ∧
    (merge_sorted_keys keys).Pairwise (fun a b =>
      (∀ d2, b.parsed = some d2 → ∃ d1, a.parsed = some d1 ∧ d1 ≤ d2) ∧
      (a.parsed = none → b.parsed = none ∧ strLE a.raw b.raw = true)) := by
  constructor
  · exact List.perm_insertionSort keyLE keys
  · have hs : List.Sorted keyLE (merge_sorted_keys keys) :=
      List.sorted_insertionSort keyLE keys
    refine hs.imp ?_
    intro a b hab
    constructor
    · intro d2 hd2
      unfold keyLE keyLEb at hab
      cases ha : a.parsed with
      | none => rw [ha, hd2] at hab; simp at hab
      | some d1 => rw [ha, hd2] at hab; simp at hab; exact ⟨d1, rfl, hab⟩
    · intro ha
      unfold keyLE keyLEb at hab
      cases hb : b.parsed with
      | some d2 => rw [ha, hb] at hab; simp at hab
      | none => rw [ha, hb] at hab; exact ⟨rfl, hab⟩

/-- Witness for C8 (amended) at a two-key input. -/
theorem C8_merge_order_amended_witness :
    List.Perm (merge_sorted_keys [ex8_kz, ex8_ka]) [ex8_kz, ex8_ka] ∧
    (merge_sorted_keys [ex8_kz, ex8_ka]).Pairwise (fun a b =>
      (∀ d2, b.parsed = some d2 → ∃ d1, a.parsed = some d1 ∧ d1 ≤ d2) ∧
      (a.parsed = none → b.parsed = none ∧ strLE a.raw b.raw = true)) :=
  C8_merge_order_amended [ex8_kz, ex8_ka]

/-- Claim C9: a threshold configuration missing `water_level_m` (or
`rainfall_mm`) makes `compute_flood_risk` fail with a caller-visible error
(a raised `KeyError`, modelled as `none`), whereas, under a configuration
valid for live computation (both keys present and non-zero, so that no
`ZeroDivisionError` is raised either), an all-absent EO feature triple
degrades to a zero EO contribution without raising: the result is produced
and its risk is `min(0.5·sensor_index, 1)`. -/
theorem C9_missing_key_fatal_missing_eo_degrades (s : SensorData)
    (eo : EOFeatures) (t : Thresholds) :
    (t.water_level_m = none → compute_flood_risk s eo t = none) ∧
    (t.rainfall_mm = none → compute_flood_risk s eo t = none) ∧
    (∀ wlm rmm, t.water_level_m = some wlm → wlm ≠ 0 →
      t.rainfall_mm = some rmm → rmm ≠ 0 →
      ∃ res, compute_flood_risk s ⟨none, none, none⟩ t = some res ∧
        res.flood_risk = min (0.5 * sensor_index s wlm rmm) 1) := by
  refine ⟨fun h => ?_, fun h => ?_, fun wlm rmm h1 h10 h2 h20 => ?_⟩
  · simp [compute_flood_risk, h]
  · cases hw : t.water_level_m <;> simp [compute_flood_risk, h, hw]
  · refine ⟨⟨min (0.5 * sensor_index s wlm rmm +
        0.5 * eo_index ⟨none, none, none⟩ t) 1,
      compute_alert_level (min (0.5 * sensor_index s wlm rmm +
        0.5 * eo_index ⟨none, none, none⟩ t) 1) t,
      ⟨none, none, none⟩⟩, ?_, ?_⟩
    · simp [compute_flood_risk, h1, h2, h10, h20]
    · simp [eo_index_all_absent]

/-- Witness for C9: a configuration missing `water_level_m` fails, one
missing `rainfall_mm` fails; the full example configuration (80 and 30,
both non-zero) with an all-absent EO triple succeeds. -/
theorem C9_missing_key_fatal_missing_eo_degrades_witness :
    compute_flood_risk ex3_sensor ex3_eo ⟨none, some 30, none, none, none⟩ = none ∧
    compute_flood_risk ex3_sensor ex3_eo ⟨some 80, none, none, none, none⟩ = none ∧
    ∃ res, compute_flood_risk ex3_sensor ⟨none, none, none⟩ ex3_thresholds = some res ∧
      res.flood_risk = min (0.5 * sensor_index ex3_sensor 80 30) 1 := by
  refine ⟨?_, ?_, ?_⟩
  · exact (C9_missing_key_fatal_missing_eo_degrades ex3_sensor ex3_eo
      ⟨none, some 30, none, none, none⟩).1 rfl
  · exact (C9_missing_key_fatal_missing_eo_degrades ex3_sensor ex3_eo
      ⟨some 80, none, none, none, none⟩).2.1 rfl
  · exact (C9_missing_key_fatal_missing_eo_degrades ex3_sensor ex3_eo
      ex3_thresholds).2.2 80 30 rfl (by norm_num) rfl (by norm_num)

/-- Claim C10: calling `load_eo_features` with no target timestamp and an
explicit count limit of zero selects `rows[-0:]`, which is the whole list,
so the aggregate is computed over all stored records — the zero count bound
is silently ignored in this branch. -/
theorem C10_zero_count_limit_ignored (rows : List EORecord) (tol : ℚ) :
    select_rows rows none (some 0) tol = rows ∧
    load_eo_features rows none (some 0) tol = aggregate_features rows := by
  constructor <;> simp [select_rows, load_eo_features, lastSlice]
